import Mathlib

/-!
Shallow embedding of the transit-light-curve fitting core of the repository
(`notebooks/utils.py`): the Index Locator `find_nearest_idx`, the Transit
Time Predictor `calculate_next_transit_time`, the Baseline Estimator
`fit_quadratic_baseline`, and the Transit Fitter orchestrator `transit_fit`.

Numeric values (Python floats) are modelled by `ℚ`.  A Python function that
can fail to terminate is modelled with an `Option` result where `none`
stands for divergence; a raised exception is modelled by `Except.error`
carrying a `PyError` value naming the Python exception class and message.
External library collaborators (the batman transit model, scipy's
`curve_fit`, `np.sqrt`) are modelled as explicit function parameters
gathered in an `Externals` record, since the repository depends only on
their signatures.
-/

/-- Python exception values raised by the code paths modelled here. The
repository defines no exception classes of its own; it raises builtin
`ValueError` / `TypeError` / `RuntimeError` instances distinguished by
their message strings. -/
inductive PyError where
  | valueError (msg : String)
  | typeError (msg : String)
  | runtimeError (msg : String)
deriving DecidableEq

/-- Core of `numpy.argmin` on a 1-D array: the first index attaining the
minimum value, paired with that value.  Returns `none` exactly on the empty
array, where `numpy.argmin` raises `ValueError`. -/
def argminPair : List ℚ → Option (Nat × ℚ)
  | [] => none
  | x :: xs =>
    match argminPair xs with
    | none => some (0, x)
    | some (i, m) => if m < x then some (i + 1, m) else some (0, x)

/-- `numpy.argmin` on a 1-D array: index of the first minimum; `none`
models the `ValueError` numpy raises on an empty array. -/
def np_argmin (l : List ℚ) : Option Nat :=
  (argminPair l).map Prod.fst

/-- Total wrapper for `np_argmin` used at call sites that are only reached
with a non-empty argument (inside `transit_fit`, after the length
validation). -/
def np_argminD (l : List ℚ) : Nat :=
  (np_argmin l).getD 0

/-- `find_nearest_idx` (utils.py lines 24-29), 1-D branch:
`idx = (np.abs(array - value)).argmin()`. -/
def find_nearest_idx (array : List ℚ) (value : ℚ) : Option Nat :=
  np_argmin (array.map (fun a => |a - value|))

/-- `find_nearest_idx` (utils.py line 28), N-D branch for a 2-D coordinate
array: `idx = np.sum(np.abs(array - value), axis=-1).argmin()`; each row's
absolute differences from the query vector are summed and the first row
with minimal sum is returned. -/
def find_nearest_idx_nd (array : List (List ℚ)) (value : List ℚ) : Option Nat :=
  np_argmin (array.map (fun row => (List.zipWith (fun a b => |a - b|) row value).sum))

/-- One fuel-indexed unfolding of the `while transit_time < start_time:
transit_time += period` loop of `calculate_next_transit_time` (utils.py
lines 52-56).  `none` means the fuel ran out while the loop guard still
held; with the fuel chosen in `calculate_next_transit_time` this happens
exactly when the Python loop diverges. -/
def transitLoopO : Nat → ℚ → ℚ → ℚ → Option ℚ
  | 0, t, _, s => if t < s then none else some t
  | n + 1, t, p, s => if t < s then transitLoopO n (t + p) p s else some t

/-- Fuel sufficient for the transit-time loop to reach its exit condition
whenever it terminates at all: `⌈(start_time - reference_time)/period⌉`
iterations when the period is positive.  For a non-positive period the
loop either exits immediately or never, so fuel 0 is already enough to
decide its fate. -/
def transitFuel (reference_time period start_time : ℚ) : Nat :=
  if 0 < period then (⌈(start_time - reference_time) / period⌉).toNat else 0

/-- `calculate_next_transit_time` (utils.py lines 32-56): starts at the
reference epoch and repeatedly adds the period while still before
`start_time`.  `none` models non-termination of the Python loop. -/
def calculate_next_transit_time (reference_time period start_time : ℚ) : Option ℚ :=
  transitLoopO (transitFuel reference_time period start_time) reference_time period start_time

/-- Modelled from the external library: `np.polyfit(x, y, deg=2)` as used
by `fit_quadratic_baseline`.  numpy raises `TypeError` (here `none`) for an
empty `x` or mismatched lengths; otherwise it returns least-squares
coefficients, highest degree first.  The full-rank branch solves the
normal equations by Cramer's rule; in the rank-deficient branch numpy
still returns (a minimum-norm solution, with a `RankWarning`), which is
modelled by a placeholder triple — no claim depends on the coefficient
values, only on the success/failure structure. -/
def polyfit_deg2 (x y : List ℚ) : Option (ℚ × ℚ × ℚ) :=
  if x.length = 0 ∨ x.length ≠ y.length then none
  else
    let s0 : ℚ := x.length
    let s1 := x.sum
    let s2 := (x.map (fun v => v ^ 2)).sum
    let s3 := (x.map (fun v => v ^ 3)).sum
    let s4 := (x.map (fun v => v ^ 4)).sum
    let t0 := y.sum
    let t1 := (List.zipWith (fun a b => a * b) x y).sum
    let t2 := (List.zipWith (fun a b => a ^ 2 * b) x y).sum
    let det := s4 * (s2 * s0 - s1 * s1) - s3 * (s3 * s0 - s1 * s2) + s2 * (s3 * s1 - s2 * s2)
    if det = 0 then some (0, 0, 0)
    else
      let da := t2 * (s2 * s0 - s1 * s1) - s3 * (t1 * s0 - t0 * s1) + s2 * (t1 * s1 - t0 * s2)
      let db := s4 * (t1 * s0 - t0 * s1) - t2 * (s3 * s0 - s1 * s2) + s2 * (s3 * t0 - s2 * t1)
      let dc := s4 * (s2 * t0 - s1 * t1) - s3 * (s3 * t0 - s1 * t2) + s2 * (s3 * t1 - s2 * t2)
      some (da / det, db / det, dc / det)

/-- `fit_quadratic_baseline` (utils.py lines 59-86): fits
`coeffs = np.polyfit(x, y, deg=2)` and returns the closure
`quadratic_model(x_val) = coeffs[0]*x_val**2 + coeffs[1]*x_val + coeffs[2]`.
`none` models the `TypeError` propagating out of `np.polyfit`. -/
def fit_quadratic_baseline (x y : List ℚ) : Option (ℚ → ℚ) :=
  (polyfit_deg2 x y).map (fun c => fun x_val => c.1 * x_val ^ 2 + c.2.1 * x_val + c.2.2)

/-- The `batman.TransitParams` record populated inside `transit_model`
(utils.py lines 211-220). -/
structure TransitParams where
  t0 : ℚ
  per : ℚ
  rp : ℚ
  a : ℚ
  inc : ℚ
  ecc : ℚ
  w : ℚ
  limb_dark : String
  u : List ℚ

/-- The argument package handed to `scipy.optimize.curve_fit` (utils.py
lines 238-245): model function, data arrays, initial guess `p0`, box
bounds, and the function-evaluation budget `maxfev`. -/
structure CurveFitCall where
  model : List ℚ → List ℚ → List ℚ
  xdata : List ℚ
  ydata : List ℚ
  p0 : List ℚ
  lowerBounds : List ℚ
  upperBounds : List ℚ
  maxfev : Nat

/-- External library collaborators of `transit_fit`, modelled as explicit
functions: `batman`'s light-curve evaluation, scipy's `curve_fit` (which
either returns `(popt, pcov)` or raises), and `np.sqrt`. -/
structure Externals where
  light_curve : TransitParams → List ℚ → List ℚ
  curve_fit : CurveFitCall → Except PyError (List ℚ × List (List ℚ))
  np_sqrt : ℚ → ℚ

/-- The combined transit + baseline model `transit_model` defined inside
`transit_fit` (utils.py lines 175-227): evaluates the batman light curve
for a circular orbit (`ecc = 0`, `w = 90`) with quadratic limb darkening
and multiplies it elementwise by the closed-over baseline.  The parameter
vector ordering is `[t0, per, a, rp, inc, u1, u2]`. -/
def transit_model (ext : Externals) (baseline_model : ℚ → ℚ) (t : List ℚ) (p : List ℚ) :
    List ℚ :=
  let params : TransitParams :=
    { t0 := p.getD 0 0
      per := p.getD 1 0
      rp := p.getD 3 0
      a := p.getD 2 0
      inc := p.getD 4 0
      ecc := 0
      w := 90
      limb_dark := "quadratic"
      u := [p.getD 5 0, p.getD 6 0] }
  let transit_curve := ext.light_curve params t
  List.zipWith (fun c b => c * b) transit_curve (t.map baseline_model)

/-- `param_names` (utils.py lines 150-158). -/
def param_names : List String :=
  ["Mid-transit time (t0)", "Period", "a/Rs", "Rp/Rs", "Inclination (deg)", "u1", "u2"]

/-- `np.diag` of a square matrix given as rows. -/
def np_diag (m : List (List ℚ)) : List ℚ :=
  (List.range m.length).map (fun i => (m.getD i []).getD i 0)

/-- `np.mean` of a 1-D array. -/
def np_mean (l : List ℚ) : ℚ :=
  l.sum / l.length

/-- The `results` dictionary built by `transit_fit` (utils.py lines
338-346). -/
structure FitResults where
  parameters : List ℚ
  uncertainties : List ℚ
  parameter_names : List String
  best_fit_model : List ℚ
  residuals : List ℚ
  rms_residuals : ℚ
  covariance_matrix : List (List ℚ)

/-- The preparation phase of `transit_fit` (utils.py lines 136-234): input
validation, transit-time prediction, in-transit boundary location via
argmin, baseline fitting on the out-of-transit concatenation, and assembly
of the `curve_fit` argument package (initial guess, bounds, `maxfev`).
`none` models divergence of `calculate_next_transit_time`;
`Except.error` models an exception raised before the optimizer runs. -/
def transitFitPrep (ext : Externals) (time flux : List ℚ)
    (duration_known period_known transittime a_guess rp_guess inc_guess : ℚ) :
    Option (Except PyError CurveFitCall) :=
  if time.length ≠ flux.length then
    some (Except.error (PyError.valueError "Time and flux arrays must have the same length"))
  else if time.length < 10 then
    some (Except.error (PyError.valueError "Insufficient data points for fitting"))
  else
    match calculate_next_transit_time transittime period_known time.headI with
    | none => none
    | some t0_guess =>
      let u1_guess : ℚ := 2 / 5
      let u2_guess : ℚ := 3 / 10
      let p0 := [t0_guess, period_known, a_guess, rp_guess, inc_guess, u1_guess, u2_guess]
      let half_duration := duration_known / 2
      let starttime_idx := np_argminD (time.map (fun ti => |ti - (t0_guess - half_duration)|))
      let endtime_idx := np_argminD (time.map (fun ti => |ti - (t0_guess + half_duration)|))
      let baseline_time := time.take starttime_idx ++ time.drop endtime_idx
      let baseline_flux := flux.take starttime_idx ++ flux.drop endtime_idx
      match fit_quadratic_baseline baseline_time baseline_flux with
      | none => some (Except.error (PyError.typeError "expected non-empty vector for x"))
      | some baseline_model =>
        some (Except.ok
          { model := transit_model ext baseline_model
            xdata := time
            ydata := flux
            p0 := p0
            lowerBounds := [time.headI, period_known - 1 / 24, 2, 1 / 100, 80, 0, 1 / 100]
            upperBounds := [time.getLastD 0, period_known + 1 / 24, 50, 1 / 5, 90, 1, 1]
            maxfev := 5000 })

/-- The optimizer invocation and post-processing phase of `transit_fit`
(utils.py lines 236-353): on success computes `perr = sqrt(diag(pcov))`,
the best-fit model, residuals and their RMS, and packages the results
dictionary; on any optimizer failure the exception is printed and
re-raised unchanged (`except Exception as e: ... raise`). -/
def transitFitRun (ext : Externals) (time flux : List ℚ) (call : CurveFitCall) :
    Except PyError (List ℚ × List ℚ × FitResults) :=
  match ext.curve_fit call with
  | Except.error e => Except.error e
  | Except.ok (popt, pcov) =>
    let perr := (np_diag pcov).map ext.np_sqrt
    let best_fit := call.model time popt
    let residuals := List.zipWith (fun f b => f - b) flux best_fit
    let rms_residuals := ext.np_sqrt (np_mean (residuals.map (fun r => r ^ 2)))
    Except.ok (popt, perr,
      { parameters := popt
        uncertainties := perr
        parameter_names := param_names
        best_fit_model := best_fit
        residuals := residuals
        rms_residuals := rms_residuals
        covariance_matrix := pcov })

/-- `transit_fit` (utils.py lines 89-353): preparation followed by the
optimizer run.  The outer `Option` models divergence, the inner `Except`
a raised exception; a successful call returns `(popt, perr, results)`. -/
def transit_fit (ext : Externals) (time flux : List ℚ)
    (duration_known period_known transittime a_guess rp_guess inc_guess : ℚ) :
    Option (Except PyError (List ℚ × List ℚ × FitResults)) :=
  match transitFitPrep ext time flux duration_known period_known transittime
      a_guess rp_guess inc_guess with
  | none => none
  | some (Except.error e) => some (Except.error e)
  | some (Except.ok call) => some (transitFitRun ext time flux call)

/-- `argminPair` returns `none` exactly on the empty list. -/
theorem argminPair_eq_none_iff (l : List ℚ) : argminPair l = none ↔ l = [] := by
  cases l with
  | nil => simp [argminPair]
  | cons x xs =>
    simp only [argminPair]
    constructor
    · intro h
      cases hxs : argminPair xs with
      | none => rw [hxs] at h; simp at h
      | some p =>
        rw [hxs] at h
        cases p with
        | mk i m => dsimp at h; split at h <;> simp_all
    · intro h; simp at h

/-- `argminPair` on a list returning `some (i, m)`: `i` is a valid index,
`m` is the value there, `m` is a minimum of the list, and every earlier
index holds a strictly larger value (first-minimum tie-breaking). -/
theorem argminPair_spec (l : List ℚ) (i : Nat) (m : ℚ)
    (h : argminPair l = some (i, m)) :
    ∃ hi : i < l.length, l.get ⟨i, hi⟩ = m ∧
      (∀ j (hj : j < l.length), m ≤ l.get ⟨j, hj⟩) ∧
      (∀ j (hj : j < l.length), j < i → m < l.get ⟨j, hj⟩) := by
  induction l generalizing i m with
  | nil => simp [argminPair] at h
  | cons x xs ih =>
    simp only [argminPair] at h
    cases hxs : argminPair xs with
    | none =>
      have hnil : xs = [] := (argminPair_eq_none_iff xs).mp hxs
      rw [hxs] at h
      simp only [Option.some.injEq, Prod.mk.injEq] at h
      obtain ⟨hi0, hm⟩ := h
      subst hi0; subst hm; subst hnil
      refine ⟨by simp, rfl, ?_, ?_⟩
      · intro j hj
        have hj0 : j = 0 := by simpa using hj
        subst hj0
        exact le_refl _
      · intro j hj hji; omega
    | some p =>
      rw [hxs] at h
      cases p with
      | mk i2 m2 =>
        obtain ⟨hi2, hget2, hmin2, htie2⟩ := ih i2 m2 hxs
        dsimp at h
        by_cases hlt : m2 < x
        · rw [if_pos hlt] at h
          simp only [Option.some.injEq, Prod.mk.injEq] at h
          obtain ⟨hi, hm⟩ := h
          subst hi; subst hm
          refine ⟨by simpa using Nat.succ_lt_succ hi2, by simpa using hget2, ?_, ?_⟩
          · intro j hj
            cases j with
            | zero => simpa using le_of_lt hlt
            | succ j2 =>
              have hj2 : j2 < xs.length := by simpa using hj
              simpa using hmin2 j2 hj2
          · intro j hj hji
            cases j with
            | zero => simpa using hlt
            | succ j2 =>
              have hj2 : j2 < xs.length := by simpa using hj
              simpa using htie2 j2 hj2 (by omega)
        · rw [if_neg hlt] at h
          simp only [Option.some.injEq, Prod.mk.injEq] at h
          obtain ⟨hi, hm⟩ := h
          subst hi; subst hm
          refine ⟨by simp, rfl, ?_, ?_⟩
          · intro j hj
            cases j with
            | zero => exact le_refl _
            | succ j2 =>
              have hj2 : j2 < xs.length := by simpa using hj
              have : m2 ≤ xs.get ⟨j2, hj2⟩ := hmin2 j2 hj2
              have hxm : x ≤ m2 := not_lt.mp hlt
              simpa using le_trans hxm this
          · intro j hj hji; omega

/-- On a non-empty list, `np_argmin` succeeds and returns the first index
of a minimal element. -/
theorem np_argmin_spec (l : List ℚ) (hl : l ≠ []) :
    ∃ i, np_argmin l = some i ∧ ∃ hi : i < l.length,
      (∀ j (hj : j < l.length), l.get ⟨i, hi⟩ ≤ l.get ⟨j, hj⟩) ∧
      (∀ j (hj : j < l.length), j < i → l.get ⟨i, hi⟩ < l.get ⟨j, hj⟩) := by
  cases l with
  | nil => exact absurd rfl hl
  | cons x xs =>
    cases hap : argminPair (x :: xs) with
    | none => rw [argminPair_eq_none_iff] at hap; simp at hap
    | some p =>
      cases p with
      | mk i m =>
        obtain ⟨hi, hget, hmin, htie⟩ := argminPair_spec (x :: xs) i m hap
        refine ⟨i, by simp [np_argmin, hap], hi, ?_, ?_⟩
        · intro j hj; rw [hget]; exact hmin j hj
        · intro j hj hji; rw [hget]; exact htie j hj hji

/-- C4: for every non-empty 1-D array `A` and query `v`, `find_nearest_idx`
returns an index `i` with `|A[i] - v| <= |A[j] - v|` for every valid `j`,
and every index before `i` has a strictly larger absolute difference, so
ties resolve to the smallest index. -/
theorem find_nearest_idx_first_min (A : List ℚ) (v : ℚ) (hA : A ≠ []) :
    ∃ i, find_nearest_idx A v = some i ∧ ∃ hi : i < A.length,
      (∀ j (hj : j < A.length), |A.get ⟨i, hi⟩ - v| ≤ |A.get ⟨j, hj⟩ - v|) ∧
      (∀ j (hj : j < A.length), j < i → |A.get ⟨i, hi⟩ - v| < |A.get ⟨j, hj⟩ - v|) := by
  have hl : A.map (fun a => |a - v|) ≠ [] := by simpa using hA
  obtain ⟨i, hsome, hi, hmin, htie⟩ := np_argmin_spec _ hl
  rw [List.length_map] at hi
  refine ⟨i, hsome, hi, ?_, ?_⟩
  · intro j hj
    have h := hmin j (by simpa using hj)
    simpa using h
  · intro j hj hji
    have h := htie j (by simpa using hj) hji
    simpa using h

/-- Witness for C4 at the concrete input `A = [3, 1, 1]`, `v = 0`. -/
theorem find_nearest_idx_first_min_witness :
    ([3, 1, 1] : List ℚ) ≠ [] ∧
    ∃ i, find_nearest_idx [3, 1, 1] 0 = some i ∧
      ∃ hi : i < ([3, 1, 1] : List ℚ).length,
      (∀ j (hj : j < ([3, 1, 1] : List ℚ).length),
        |([3, 1, 1] : List ℚ).get ⟨i, hi⟩ - 0| ≤ |([3, 1, 1] : List ℚ).get ⟨j, hj⟩ - 0|) ∧
      (∀ j (hj : j < ([3, 1, 1] : List ℚ).length), j < i →
        |([3, 1, 1] : List ℚ).get ⟨i, hi⟩ - 0| < |([3, 1, 1] : List ℚ).get ⟨j, hj⟩ - 0|) :=
  ⟨by simp, find_nearest_idx_first_min [3, 1, 1] 0 (by simp)⟩

/-- C10: on non-empty input, `find_nearest_idx` always returns a valid
index into the 1-D array, and the N-D branch returns a valid index into
the list of row-wise summed absolute differences. -/
theorem find_nearest_idx_in_range (A : List ℚ) (v : ℚ)
    (B : List (List ℚ)) (vv : List ℚ) (hA : A ≠ []) (hB : B ≠ []) :
    (∃ i, find_nearest_idx A v = some i ∧ i < A.length) ∧
    (∃ i, find_nearest_idx_nd B vv = some i ∧ i < B.length) := by
  constructor
  · have hl : A.map (fun a => |a - v|) ≠ [] := by simpa using hA
    obtain ⟨i, hsome, hi, -, -⟩ := np_argmin_spec _ hl
    exact ⟨i, hsome, by simpa using hi⟩
  · have hl : B.map (fun row => (List.zipWith (fun a b => |a - b|) row vv).sum) ≠ [] := by
      simpa using hB
    obtain ⟨i, hsome, hi, -, -⟩ := np_argmin_spec _ hl
    exact ⟨i, hsome, by simpa using hi⟩

/-- Witness for C10 at `A = [5]`, `v = 2`, `B = [[1, 2]]`, `vv = [0, 0]`. -/
theorem find_nearest_idx_in_range_witness :
    ([5] : List ℚ) ≠ [] ∧ ([[1, 2]] : List (List ℚ)) ≠ [] ∧
    ((∃ i, find_nearest_idx [5] 2 = some i ∧ i < ([5] : List ℚ).length) ∧
     (∃ i, find_nearest_idx_nd [[1, 2]] [0, 0] = some i ∧
        i < ([[1, 2]] : List (List ℚ)).length)) :=
  ⟨by simp, by simp, find_nearest_idx_in_range [5] 2 [[1, 2]] [0, 0] (by simp) (by simp)⟩

/-- When the loop guard already fails, the transit-time loop returns its
argument at any fuel. -/
theorem transitLoopO_of_not_lt (n : Nat) (t p s : ℚ) (h : ¬ t < s) :
    transitLoopO n t p s = some t := by
  cases n <;> simp [transitLoopO, h]

/-- With a non-positive period and the guard holding, the transit-time
loop never exits: it returns `none` at every fuel, i.e. the Python loop
diverges. -/
theorem transitLoopO_none_of_nonpos (p s : ℚ) (hp : p ≤ 0) :
    ∀ (n : Nat) (t : ℚ), t < s → transitLoopO n t p s = none := by
  intro n
  induction n with
  | zero => intro t ht; simp [transitLoopO, ht]
  | succ k ih =>
    intro t ht
    simp only [transitLoopO, if_pos ht]
    exact ih (t + p) (by linarith)

/-- With a positive period and fuel at least `⌈(s - t)/p⌉`, the
transit-time loop exits and returns `t + ⌈(s - t)/p⌉⁺ * p` where `⁺`
truncates negatives to zero. -/
theorem transitLoopO_eq_of_le (p s : ℚ) (hp : 0 < p) :
    ∀ (n : Nat) (t : ℚ), (⌈(s - t) / p⌉).toNat ≤ n →
      transitLoopO n t p s = some (t + ((⌈(s - t) / p⌉).toNat : ℚ) * p) := by
  intro n
  induction n with
  | zero =>
    intro t hn
    have h0 : (⌈(s - t) / p⌉).toNat = 0 := Nat.le_zero.mp hn
    have ht : ¬ t < s := by
      intro ht
      have hpos : 0 < (s - t) / p := div_pos (by linarith) hp
      have hcp := Int.ceil_pos.mpr hpos
      omega
    rw [transitLoopO_of_not_lt 0 t p s ht, h0]
    norm_num
  | succ k ih =>
    intro t hn
    by_cases ht : t < s
    · have hpos : 0 < (s - t) / p := div_pos (by linarith) hp
      have hceil1 : 1 ≤ ⌈(s - t) / p⌉ := Int.ceil_pos.mpr hpos
      have harg : (s - (t + p)) / p = (s - t) / p - 1 := by
        rw [show s - (t + p) = s - t - p by ring, sub_div, div_self hp.ne']
      have hstep : ⌈(s - (t + p)) / p⌉ = ⌈(s - t) / p⌉ - 1 := by
        rw [harg]
        exact_mod_cast Int.ceil_sub_int ((s - t) / p) 1
      simp only [transitLoopO, if_pos ht]
      have hn2 : (⌈(s - (t + p)) / p⌉).toNat ≤ k := by
        rw [hstep]; omega
      rw [ih (t + p) hn2, hstep]
      have h1 : ((⌈(s - t) / p⌉ - 1).toNat : ℚ) = ((⌈(s - t) / p⌉).toNat : ℚ) - 1 := by
        have he : (⌈(s - t) / p⌉ - 1).toNat = (⌈(s - t) / p⌉).toNat - 1 := by omega
        have h2 : 1 ≤ (⌈(s - t) / p⌉).toNat := by omega
        rw [he]
        push_cast [h2]
        ring
      rw [h1]
      congr 1
      ring
    · have hd : (s - t) / p ≤ 0 := by
        apply div_nonpos_of_nonpos_of_nonneg <;> linarith
      have hc : ⌈(s - t) / p⌉ ≤ 0 := by
        simpa using Int.ceil_le.mpr (by simpa using hd)
      have h0 : (⌈(s - t) / p⌉).toNat = 0 := by omega
      rw [transitLoopO_of_not_lt (k + 1) t p s ht, h0]
      norm_num

/-- Closed form of `calculate_next_transit_time` for a positive period:
the loop result is `reference_time + k * period` with
`k = max(⌈(start_time - reference_time)/period⌉, 0)`. -/
theorem calculate_next_transit_closed_form (reference_time period start_time : ℚ)
    (hp : 0 < period) :
    calculate_next_transit_time reference_time period start_time =
      some (reference_time +
        ((⌈(start_time - reference_time) / period⌉).toNat : ℚ) * period) := by
  unfold calculate_next_transit_time transitFuel
  rw [if_pos hp]
  exact transitLoopO_eq_of_le period start_time hp _ reference_time (le_refl _)

/-- C1 counterexample: at `t_ref = 10`, `P = 1`, `t_start = 0` the code
returns the reference epoch itself, `r = 10`, which violates the claimed
bound `r < t_start + P = 1`: when the reference epoch is after the start
time the loop never steps backwards. -/
theorem calculate_next_transit_time_counterexample :
    calculate_next_transit_time 10 1 0 = some 10 ∧ ¬ ((10 : ℚ) < 0 + 1) := by
  constructor
  · exact transitLoopO_of_not_lt _ 10 1 0 (by norm_num)
  · norm_num

/-- C1 (amended): for `P > 0`, when `t_ref <= t_start` the result is the
smallest term `t_ref + k*P` (`k` a non-negative integer) that is at or
after `t_start`, i.e. `t_start <= r < t_start + P`; when
`t_ref >= t_start` the code returns `t_ref` itself (which is `>= t_start`
but in general not `< t_start + P`). -/
theorem calculate_next_transit_time_amended (reference_time period start_time : ℚ)
    (hp : 0 < period) :
    (reference_time ≤ start_time →
      ∃ k : ℕ, calculate_next_transit_time reference_time period start_time =
          some (reference_time + k * period) ∧
        start_time ≤ reference_time + k * period ∧
        reference_time + k * period < start_time + period) ∧
    (start_time ≤ reference_time →
      calculate_next_transit_time reference_time period start_time = some reference_time) := by
  have hcf := calculate_next_transit_closed_form reference_time period start_time hp
  set c := ⌈(start_time - reference_time) / period⌉ with hc
  constructor
  · intro hrs
    refine ⟨c.toNat, hcf, ?_, ?_⟩
    · have h1 : (start_time - reference_time) / period ≤ (c.toNat : ℚ) := by
        calc (start_time - reference_time) / period ≤ (c : ℚ) := Int.le_ceil _
        _ ≤ (c.toNat : ℚ) := by exact_mod_cast Int.self_le_toNat c
      rw [div_le_iff₀ hp] at h1
      linarith
    · by_cases hc0 : c ≤ 0
      · have h0 : c.toNat = 0 := by omega
        rw [h0]
        push_cast
        linarith
      · push_neg at hc0
        have hceq : (c.toNat : ℚ) = (c : ℚ) := by
          exact_mod_cast Int.toNat_of_nonneg (by omega)
        have hlt : (c : ℚ) < (start_time - reference_time) / period + 1 :=
          Int.ceil_lt_add_one _
        rw [hceq]
        have hmul : (c : ℚ) * period < (start_time - reference_time) + period := by
          have h2 := mul_lt_mul_of_pos_right hlt hp
          rw [add_mul, one_mul, div_mul_cancel₀ _ hp.ne'] at h2
          exact h2
        linarith
  · intro hsr
    have hd : (start_time - reference_time) / period ≤ 0 :=
      div_nonpos_of_nonpos_of_nonneg (by linarith) hp.le
    have hc0 : c ≤ 0 := by simpa [hc] using Int.ceil_le.mpr (by simpa using hd)
    have h0 : c.toNat = 0 := by omega
    rw [hcf, h0]
    norm_num

/-- Witness for C1 (amended) at `t_ref = 0`, `P = 7`, `t_start = 10`. -/
theorem calculate_next_transit_time_amended_witness :
    (0 : ℚ) < 7 ∧ (0 : ℚ) ≤ 10 ∧
    ∃ k : ℕ, calculate_next_transit_time 0 7 10 = some ((0 : ℚ) + (k : ℚ) * 7) ∧
      (10 : ℚ) ≤ 0 + (k : ℚ) * 7 ∧ (0 : ℚ) + (k : ℚ) * 7 < 10 + 7 :=
  ⟨by norm_num, by norm_num,
    (calculate_next_transit_time_amended 0 7 10 (by norm_num)).1 (by norm_num)⟩

/-- C2 counterexample: no `InvalidInputError` is ever raised.  With
`P = -1 <= 0` the predictor silently returns the reference epoch when it
is already at or past the start time, and diverges (models the infinite
`while` loop) otherwise; and `find_nearest_idx` on an empty array fails
inside numpy's `argmin` (modelled by `none`), not with a repository-defined
error at a validation point. -/
theorem input_validation_counterexample :
    calculate_next_transit_time 5 (-1) 0 = some 5 ∧
    calculate_next_transit_time 0 (-1) 5 = none ∧
    find_nearest_idx [] 0 = none := by
  refine ⟨?_, ?_, rfl⟩
  · exact transitLoopO_of_not_lt _ 5 (-1) 0 (by norm_num)
  · exact transitLoopO_none_of_nonpos (-1) 5 (by norm_num) _ 0 (by norm_num)

/-- C2 (amended): the code performs no input validation and defines no
`InvalidInputError`.  For a non-positive period the predictor silently
returns `reference_time` when `start_time <= reference_time` and fails to
terminate otherwise (at every fuel the loop is still running); the Index
Locator on an empty array produces no index — the failure is numpy's
`ValueError` from `argmin`, modelled by `none`. -/
theorem input_validation_amended (reference_time period start_time v : ℚ)
    (hp : period ≤ 0) :
    (start_time ≤ reference_time →
      calculate_next_transit_time reference_time period start_time = some reference_time) ∧
    (reference_time < start_time →
      calculate_next_transit_time reference_time period start_time = none ∧
      ∀ n, transitLoopO n reference_time period start_time = none) ∧
    find_nearest_idx [] v = none := by
  refine ⟨?_, ?_, rfl⟩
  · intro hsr
    exact transitLoopO_of_not_lt _ _ _ _ (not_lt.mpr hsr)
  · intro hrs
    have hall := transitLoopO_none_of_nonpos period start_time hp
    exact ⟨hall _ _ hrs, fun n => hall n _ hrs⟩

/-- Witness for C2 (amended) at `t_ref = 5`, `P = -1`, `t_start = 0`. -/
theorem input_validation_amended_witness :
    ((-1 : ℚ) ≤ 0) ∧ ((0 : ℚ) ≤ 5) ∧
    calculate_next_transit_time 5 (-1) 0 = some 5 :=
  ⟨by norm_num, by norm_num,
    (input_validation_amended 5 (-1) 0 0 (by norm_num)).1 (by norm_num)⟩

/-- C6: for any positive period the transit-time computation terminates —
there is a result value reached at the chosen fuel and at every larger
fuel, so the embedded loop is a total function of its inputs under the
precondition `P > 0`. -/
theorem calculate_next_transit_time_terminates (reference_time period start_time : ℚ)
    (hp : 0 < period) :
    ∃ r, calculate_next_transit_time reference_time period start_time = some r ∧
      ∀ n, transitFuel reference_time period start_time ≤ n →
        transitLoopO n reference_time period start_time = some r := by
  refine ⟨_, calculate_next_transit_closed_form reference_time period start_time hp, ?_⟩
  intro n hn
  apply transitLoopO_eq_of_le period start_time hp
  unfold transitFuel at hn
  rw [if_pos hp] at hn
  exact hn

/-- Witness for C6 at `t_ref = 3`, `P = 2`, `t_start = 10`. -/
theorem calculate_next_transit_time_terminates_witness :
    (0 : ℚ) < 2 ∧
    ∃ r, calculate_next_transit_time 3 2 10 = some r ∧
      ∀ n, transitFuel 3 2 10 ≤ n → transitLoopO n 3 2 10 = some r :=
  ⟨by norm_num, calculate_next_transit_time_terminates 3 2 10 (by norm_num)⟩

/-- For a non-empty `x` of the same length as `y`, the modelled
`np.polyfit` always returns coefficients. -/
theorem polyfit_deg2_isSome (x y : List ℚ) (hx : x ≠ []) (hlen : x.length = y.length) :
    ∃ c, polyfit_deg2 x y = some c := by
  unfold polyfit_deg2
  have hcond : ¬ (x.length = 0 ∨ x.length ≠ y.length) := by
    push_neg
    exact ⟨fun h => hx (List.length_eq_zero.mp h), hlen⟩
  rw [if_neg hcond]
  dsimp only
  split
  · exact ⟨_, rfl⟩
  · exact ⟨_, rfl⟩

/-- For a non-empty `x` of the same length as `y`, `fit_quadratic_baseline`
always returns a baseline closure. -/
theorem fit_quadratic_baseline_isSome (x y : List ℚ) (hx : x ≠ [])
    (hlen : x.length = y.length) :
    ∃ f, fit_quadratic_baseline x y = some f := by
  obtain ⟨c, hc⟩ := polyfit_deg2_isSome x y hx hlen
  refine ⟨fun x_val => c.1 * x_val ^ 2 + c.2.1 * x_val + c.2.2, ?_⟩
  simp [fit_quadratic_baseline, hc]

/-- C5 counterexample: on two samples (two distinct time values) the
Baseline Estimator silently returns a baseline function instead of failing
— `np.polyfit` computes a rank-deficient least-squares solution with only
a warning, and the code performs no sample-count validation. -/
theorem fit_quadratic_baseline_counterexample :
    (fit_quadratic_baseline [0, 1] [1, 2]).isSome = true := by
  obtain ⟨f, hf⟩ := fit_quadratic_baseline_isSome [0, 1] [1, 2] (by simp) (by simp)
  rw [hf]
  rfl

/-- C5 (amended): `fit_quadratic_baseline` performs no distinct-sample
count validation and raises no `InsufficientDataError`: for every
non-empty `x` (with matching `y` length) — including one or two samples —
it silently returns a quadratic closure, and for empty input the failure
is the `TypeError` numpy's `polyfit` raises (modelled by `none`). -/
theorem fit_quadratic_baseline_amended (x y : List ℚ) :
    (x ≠ [] → x.length = y.length → ∃ f, fit_quadratic_baseline x y = some f) ∧
    (x = [] → fit_quadratic_baseline x y = none) := by
  constructor
  · exact fit_quadratic_baseline_isSome x y
  · intro hx
    subst hx
    rfl

/-- Witness for C5 (amended) at `x = [0, 1]`, `y = [1, 2]`. -/
theorem fit_quadratic_baseline_amended_witness :
    ([0, 1] : List ℚ) ≠ [] ∧ ([0, 1] : List ℚ).length = ([1, 2] : List ℚ).length ∧
    ∃ f, fit_quadratic_baseline [0, 1] [1, 2] = some f :=
  ⟨by simp, by simp,
    (fit_quadratic_baseline_amended [0, 1] [1, 2]).1 (by simp) (by simp)⟩

/-- On a non-empty list the defaulted argmin index is in range. -/
theorem np_argminD_lt (l : List ℚ) (hl : l ≠ []) : np_argminD l < l.length := by
  obtain ⟨i, hsome, hi, -, -⟩ := np_argmin_spec l hl
  simpa [np_argminD, hsome] using hi

/-- In a strictly sorted non-empty list the first element is at most the
last. -/
theorem sorted_headI_le_getLastD (l : List ℚ) (hl : l ≠ []) (hs : l.Sorted (· < ·)) :
    l.headI ≤ l.getLastD 0 := by
  cases l with
  | nil => exact absurd rfl hl
  | cons x xs =>
    have hlast : (x :: xs).getLastD 0 = (x :: xs).getLast (by simp) := by
      rw [List.getLastD_eq_getLast?, List.getLast?_eq_getLast _ (by simp)]
      rfl
    have hmem : (x :: xs).getLast (by simp) ∈ x :: xs := List.getLast_mem (by simp)
    rcases List.mem_cons.mp hmem with h | h
    · rw [hlast, List.headI]
      exact h.ge
    · have hx := (List.sorted_cons.mp hs).1 _ h
      rw [hlast, List.headI]
      exact le_of_lt hx

/-- Under passing validation (`len(time) == len(flux)`, `len(time) >= 10`)
and a positive period, the preparation phase of `transit_fit` reaches the
optimizer invocation and assembles exactly the initial guess, bounds, and
`maxfev` written in the source. -/
theorem transitFitPrep_ok (ext : Externals) (time flux : List ℚ)
    (duration_known period_known transittime a_guess rp_guess inc_guess : ℚ)
    (hlen : time.length = flux.length) (h10 : 10 ≤ time.length)
    (hp : 0 < period_known) :
    ∃ t0_guess call,
      calculate_next_transit_time transittime period_known time.headI = some t0_guess ∧
      transitFitPrep ext time flux duration_known period_known transittime a_guess rp_guess
          inc_guess = some (Except.ok call) ∧
      call.p0 = [t0_guess, period_known, a_guess, rp_guess, inc_guess, 2 / 5, 3 / 10] ∧
      call.lowerBounds = [time.headI, period_known - 1 / 24, 2, 1 / 100, 80, 0, 1 / 100] ∧
      call.upperBounds = [time.getLastD 0, period_known + 1 / 24, 50, 1 / 5, 90, 1, 1] ∧
      call.maxfev = 5000 := by
  obtain ⟨t0g, ht0⟩ : ∃ r,
      calculate_next_transit_time transittime period_known time.headI = some r :=
    ⟨_, calculate_next_transit_closed_form _ _ _ hp⟩
  have htne : time ≠ [] := by
    intro h
    rw [h] at h10
    simp at h10
  have heidx_lt :
      np_argminD (time.map (fun ti => |ti - (t0g + duration_known / 2)|)) < time.length := by
    have h := np_argminD_lt (time.map (fun ti => |ti - (t0g + duration_known / 2)|))
      (by simpa using htne)
    simpa using h
  have hd_ne : time.drop
      (np_argminD (time.map (fun ti => |ti - (t0g + duration_known / 2)|))) ≠ [] := by
    intro h
    rw [List.drop_eq_nil_iff] at h
    omega
  have hbt_ne :
      time.take (np_argminD (time.map (fun ti => |ti - (t0g - duration_known / 2)|))) ++
        time.drop (np_argminD (time.map (fun ti => |ti - (t0g + duration_known / 2)|))) ≠ [] :=
    fun h => hd_ne (List.append_eq_nil.mp h).2
  have hbl_len :
      (time.take (np_argminD (time.map (fun ti => |ti - (t0g - duration_known / 2)|))) ++
        time.drop (np_argminD (time.map (fun ti => |ti - (t0g + duration_known / 2)|)))).length =
      (flux.take (np_argminD (time.map (fun ti => |ti - (t0g - duration_known / 2)|))) ++
        flux.drop (np_argminD (time.map (fun ti => |ti - (t0g + duration_known / 2)|)))).length := by
    simp [hlen]
  obtain ⟨bm, hbm⟩ := fit_quadratic_baseline_isSome _ _ hbt_ne hbl_len
  refine ⟨t0g,
    { model := transit_model ext bm
      xdata := time
      ydata := flux
      p0 := [t0g, period_known, a_guess, rp_guess, inc_guess, 2 / 5, 3 / 10]
      lowerBounds := [time.headI, period_known - 1 / 24, 2, 1 / 100, 80, 0, 1 / 100]
      upperBounds := [time.getLastD 0, period_known + 1 / 24, 50, 1 / 5, 90, 1, 1]
      maxfev := 5000 }, ht0, ?_, rfl, rfl, rfl, rfl⟩
  unfold transitFitPrep
  rw [if_neg (by omega), if_neg (by omega), ht0]
  dsimp only
  rw [hbm]

/-- C3: a length mismatch makes `transit_fit` fail immediately with the
length-mismatch `ValueError`, and (with matching lengths) fewer than 10
points makes it fail immediately with the distinct insufficient-points
`ValueError`; in both cases the result is the same for every choice of
external collaborators and numeric parameters, so no transit-time
prediction, baseline fit, or optimization contributes to it. -/
theorem transit_fit_validation (ext : Externals) (time flux : List ℚ)
    (duration_known period_known transittime a_guess rp_guess inc_guess : ℚ) :
    (time.length ≠ flux.length →
      transit_fit ext time flux duration_known period_known transittime a_guess rp_guess
        inc_guess =
        some (Except.error
          (PyError.valueError "Time and flux arrays must have the same length"))) ∧
    (time.length = flux.length → time.length < 10 →
      transit_fit ext time flux duration_known period_known transittime a_guess rp_guess
        inc_guess =
        some (Except.error (PyError.valueError "Insufficient data points for fitting"))) ∧
    PyError.valueError "Time and flux arrays must have the same length" ≠
      PyError.valueError "Insufficient data points for fitting" := by
  refine ⟨?_, ?_, by simp⟩
  · intro h
    unfold transit_fit transitFitPrep
    rw [if_pos h]
  · intro h1 h2
    unfold transit_fit transitFitPrep
    rw [if_neg (by omega), if_pos h2]

/-- Fixed instantiation of the external collaborators used by the concrete
witnesses below: a trivial light curve, an optimizer that always fails
with the `RuntimeError` scipy raises when `maxfev` is exhausted, and the
identity standing in for `np.sqrt`. -/
def extW : Externals where
  light_curve := fun _ t => t.map (fun _ => 1)
  curve_fit := fun _ => Except.error (PyError.runtimeError "Optimal parameters not found")
  np_sqrt := fun q => q

/-- Witness for C3 at mismatched lengths 3 and 2. -/
theorem transit_fit_validation_witness :
    (([0, 1, 2] : List ℚ).length ≠ ([0, 1] : List ℚ).length) ∧
    transit_fit extW [0, 1, 2] [0, 1] 1 1 0 10 (1 / 10) 89 =
      some (Except.error
        (PyError.valueError "Time and flux arrays must have the same length")) :=
  ⟨by simp,
    (transit_fit_validation extW [0, 1, 2] [0, 1] 1 1 0 10 (1 / 10) 89).1 (by simp)⟩

/-- C7: under the spec's data-model assumption that the time array is
strictly increasing, a validated call with positive known period invokes
the optimizer with initial guess exactly
`[t0_guess, known_period, a_guess, rp_guess, inc_guess, 0.4, 0.3]`
(`t0_guess` being the Transit Time Predictor's output), with the fixed
bounds written in the source, and with a function-evaluation budget of
5000; pointwise the lower bounds do not exceed the upper bounds. -/
theorem transit_fit_optimizer_call (ext : Externals) (time flux : List ℚ)
    (duration_known period_known transittime a_guess rp_guess inc_guess : ℚ)
    (hlen : time.length = flux.length) (h10 : 10 ≤ time.length)
    (hp : 0 < period_known) (hsort : time.Sorted (· < ·)) :
    ∃ t0_guess call,
      calculate_next_transit_time transittime period_known time.headI = some t0_guess ∧
      transitFitPrep ext time flux duration_known period_known transittime a_guess rp_guess
          inc_guess = some (Except.ok call) ∧
      call.p0 = [t0_guess, period_known, a_guess, rp_guess, inc_guess, 2 / 5, 3 / 10] ∧
      call.lowerBounds = [time.headI, period_known - 1 / 24, 2, 1 / 100, 80, 0, 1 / 100] ∧
      call.upperBounds = [time.getLastD 0, period_known + 1 / 24, 50, 1 / 5, 90, 1, 1] ∧
      call.maxfev = 5000 ∧
      ∀ j, j < 7 → call.lowerBounds.getD j 0 ≤ call.upperBounds.getD j 0 := by
  obtain ⟨t0g, call, ht0, hprep, hp0, hlo, hhi, hmax⟩ :=
    transitFitPrep_ok ext time flux duration_known period_known transittime a_guess
      rp_guess inc_guess hlen h10 hp
  have hne : time ≠ [] := by
    intro h
    rw [h] at h10
    simp at h10
  have hhl : time.headI ≤ time.getLastD 0 := sorted_headI_le_getLastD time hne hsort
  refine ⟨t0g, call, ht0, hprep, hp0, hlo, hhi, hmax, ?_⟩
  intro j hj
  rw [hlo, hhi]
  rw [List.getLastD_eq_getLast?] at hhl
  interval_cases j <;> simp <;> linarith

/-- Witness for C7 on ten strictly increasing time samples. -/
theorem transit_fit_optimizer_call_witness :
    (([0, 1, 2, 3, 4, 5, 6, 7, 8, 9] : List ℚ).length =
      ([1, 1, 1, 1, 1, 1, 1, 1, 1, 1] : List ℚ).length) ∧
    10 ≤ ([0, 1, 2, 3, 4, 5, 6, 7, 8, 9] : List ℚ).length ∧
    (0 : ℚ) < 1 ∧
    ([0, 1, 2, 3, 4, 5, 6, 7, 8, 9] : List ℚ).Sorted (· < ·) ∧
    ∃ t0_guess call,
      calculate_next_transit_time 0 1
          ([0, 1, 2, 3, 4, 5, 6, 7, 8, 9] : List ℚ).headI = some t0_guess ∧
      transitFitPrep extW [0, 1, 2, 3, 4, 5, 6, 7, 8, 9] [1, 1, 1, 1, 1, 1, 1, 1, 1, 1]
          1 1 0 10 (1 / 10) 89 = some (Except.ok call) ∧
      call.p0 = [t0_guess, 1, 10, 1 / 10, 89, 2 / 5, 3 / 10] ∧
      call.lowerBounds =
        [([0, 1, 2, 3, 4, 5, 6, 7, 8, 9] : List ℚ).headI, 1 - 1 / 24, 2, 1 / 100, 80, 0,
          1 / 100] ∧
      call.upperBounds =
        [([0, 1, 2, 3, 4, 5, 6, 7, 8, 9] : List ℚ).getLastD 0, 1 + 1 / 24, 50, 1 / 5, 90, 1,
          1] ∧
      call.maxfev = 5000 ∧
      ∀ j, j < 7 → call.lowerBounds.getD j 0 ≤ call.upperBounds.getD j 0 :=
  ⟨rfl, by simp, by norm_num, by norm_num [List.sorted_cons],
    transit_fit_optimizer_call extW [0, 1, 2, 3, 4, 5, 6, 7, 8, 9]
      [1, 1, 1, 1, 1, 1, 1, 1, 1, 1] 1 1 0 10 (1 / 10) 89 rfl (by simp) (by norm_num)
      (by norm_num [List.sorted_cons])⟩

/-- C8: whenever the optimizer fails, the validated `transit_fit` call
propagates that very error to its caller — the result is the raised
error itself, never a normal return, a default value, or a partial fit
result, and the diagnostic printing on the failure path does not replace
it. -/
theorem transit_fit_error_propagation (ext : Externals) (time flux : List ℚ)
    (duration_known period_known transittime a_guess rp_guess inc_guess : ℚ) (e : PyError)
    (hlen : time.length = flux.length) (h10 : 10 ≤ time.length) (hp : 0 < period_known)
    (hfail : ∀ c, ext.curve_fit c = Except.error e) :
    transit_fit ext time flux duration_known period_known transittime a_guess rp_guess
      inc_guess = some (Except.error e) := by
  obtain ⟨t0g, call, ht0, hprep, -, -, -, -⟩ :=
    transitFitPrep_ok ext time flux duration_known period_known transittime a_guess
      rp_guess inc_guess hlen h10 hp
  have hrun : transit_fit ext time flux duration_known period_known transittime a_guess
      rp_guess inc_guess = some (transitFitRun ext time flux call) := by
    unfold transit_fit
    rw [hprep]
  rw [hrun]
  unfold transitFitRun
  rw [hfail call]

/-- Witness for C8: with an always-failing optimizer the concrete call
returns exactly the optimizer's RuntimeError. -/
theorem transit_fit_error_propagation_witness :
    (([0, 1, 2, 3, 4, 5, 6, 7, 8, 9] : List ℚ).length =
      ([1, 1, 1, 1, 1, 1, 1, 1, 1, 1] : List ℚ).length) ∧
    10 ≤ ([0, 1, 2, 3, 4, 5, 6, 7, 8, 9] : List ℚ).length ∧
    (0 : ℚ) < 1 ∧
    (∀ c, extW.curve_fit c =
      Except.error (PyError.runtimeError "Optimal parameters not found")) ∧
    transit_fit extW [0, 1, 2, 3, 4, 5, 6, 7, 8, 9] [1, 1, 1, 1, 1, 1, 1, 1, 1, 1]
        1 1 0 10 (1 / 10) 89 =
      some (Except.error (PyError.runtimeError "Optimal parameters not found")) :=
  ⟨rfl, by simp, by norm_num, fun c => rfl,
    transit_fit_error_propagation extW [0, 1, 2, 3, 4, 5, 6, 7, 8, 9]
      [1, 1, 1, 1, 1, 1, 1, 1, 1, 1] 1 1 0 10 (1 / 10) 89
      (PyError.runtimeError "Optimal parameters not found") rfl (by simp) (by norm_num)
      (fun c => rfl)⟩

/-- C9: `transit_fit` is deterministic — with the same external
collaborators, two calls on equal inputs return equal results (parameters,
uncertainties, best-fit model, residuals, RMS, covariance).  The embedding
is a pure function of its arguments, faithfully reflecting that the
source uses no randomness and shares no mutable state across calls. -/
theorem transit_fit_deterministic (ext : Externals)
    (time1 flux1 : List ℚ) (d1 p1 tt1 a1 r1 i1 : ℚ)
    (time2 flux2 : List ℚ) (d2 p2 tt2 a2 r2 i2 : ℚ)
    (ht : time1 = time2) (hf : flux1 = flux2) (hd : d1 = d2) (hp : p1 = p2)
    (htt : tt1 = tt2) (ha : a1 = a2) (hr : r1 = r2) (hi : i1 = i2) :
    transit_fit ext time1 flux1 d1 p1 tt1 a1 r1 i1 =
      transit_fit ext time2 flux2 d2 p2 tt2 a2 r2 i2 := by
  subst ht
  subst hf
  subst hd
  subst hp
  subst htt
  subst ha
  subst hr
  subst hi
  rfl

/-- Witness for C9 at one concrete argument tuple (all equality hypotheses
discharged by `rfl`). -/
theorem transit_fit_deterministic_witness :
    (([0, 1, 2] : List ℚ) = [0, 1, 2]) ∧ ((1 : ℚ) = 1) ∧
    transit_fit extW [0, 1, 2] [1, 1, 1] 1 1 0 10 (1 / 10) 89 =
      transit_fit extW [0, 1, 2] [1, 1, 1] 1 1 0 10 (1 / 10) 89 :=
  ⟨rfl, rfl,
    transit_fit_deterministic extW [0, 1, 2] [1, 1, 1] 1 1 0 10 (1 / 10) 89
      [0, 1, 2] [1, 1, 1] 1 1 0 10 (1 / 10) 89 rfl rfl rfl rfl rfl rfl rfl rfl⟩
